import Mathlib

/-!
Verification of the maily email-relay processor.

This file gives a shallow embedding of the relay core found in
`src/relay/message.py`, `src/relay/aws/ses.py`, `src/relay/locker_api.py`,
`src/relay/config.py` and `src/relay/exceptions.py`, and settles a list of
claims about it.  Python dict/attribute accesses that can raise are modelled
with `Option`/`Except`; the external collaborators (S3, SES, the Locker
directory API, urlopen) are modelled as explicit environment records whose
behaviour the theorems quantify over; observable calls to the collaborators
are recorded as an explicit effect list.  Helpers that live in
`relay.utils` or `relay.aws` (absent from the inspected sources) are
modelled from the specification and carry a doc comment saying so.
-/

namespace Maily

/-! ## Configuration (src/relay/config.py) -/

def RELAY_DOMAINS : List String := ["maily.org"]

def REPLY_EMAIL : String := "replies@maily.org"

def RELAY_FROM_ADDRESS : String := "relay@maily.org"

/-! ## Basic types -/

/-- Byte strings are modelled as lists of naturals. -/
abbrev Bytes := List Nat

/-- Python exceptions that the embedded control flow can let escape. -/
inductive PyExc
  | keyError
  | typeError
  | attributeError
  | indexError
  | cryptoError
  | binasciiError
  | decryptionError
  deriving Repr, DecidableEq

/-- Failure modes of the S3 `get` collaborator (botocore ClientError codes). -/
inductive S3Err
  | noSuchKey
  | other
  deriving Repr, DecidableEq

/-- Classified failures of content extraction (`get_text_html_attachments`). -/
inductive ExtractErr
  | tooBigFile
  | s3NoSuchKey
  | s3Other
  deriving Repr, DecidableEq

/-- Outcome of one SES `send_raw_email` call: a provider message id, or a
botocore ClientError. -/
inductive SendOutcome
  | ok (messageId : String)
  | clientError
  deriving Repr, DecidableEq

/-! ## String helpers mirroring the Python built-ins used by the source -/

/-- Python `needle in haystack` on strings (substring containment), on the
character lists. -/
def containsSub (needle : List Char) : List Char → Bool
  | [] => needle.isEmpty
  | c :: rest => needle.isPrefixOf (c :: rest) || containsSub needle rest

/-- Python `sub in s` (substring test). -/
def strIncludes (s sub : String) : Bool :=
  containsSub sub.toList s.toList

/-- Python `s.startswith(pre)`. -/
def strStartsWith (s pre : String) : Bool :=
  pre.toList.isPrefixOf s.toList

/-- Characters before the first occurrence of `c` (all of them when absent). -/
def takeUntil (c : Char) : List Char → List Char
  | [] => []
  | x :: rest => if x = c then [] else x :: takeUntil c rest

/-- Characters after the first occurrence of `c`, `none` when absent. -/
def dropThrough (c : Char) : List Char → Option (List Char)
  | [] => none
  | x :: rest => if x = c then some rest else dropThrough c rest

/-- Python `str.lower()`. -/
def pyLower (s : String) : String :=
  String.mk (s.toList.map Char.toLower)

/-- ASCII whitespace, as stripped by Python `str.strip()`. -/
def isSpaceChar (c : Char) : Bool :=
  c = ' ' || c = '\t' || c = '\n' || c = '\r'

/-- Python `str.strip()`. -/
def pyStrip (s : String) : String :=
  String.mk
    (((s.toList.dropWhile isSpaceChar).reverse.dropWhile isSpaceChar).reverse)

/-- Python `email.utils.parseaddr(s)[1]` for the address shapes this program
handles: the part between the first `<` and the following `>` when a display
name is present, the string itself otherwise. -/
def parseaddr_addr (s : String) : String :=
  match dropThrough '<' s.toList with
  | none => s
  | some rest => String.mk (takeUntil '>' rest)

/-- Python `s.encode("utf-8")`, modelled as the code-point sequence. -/
def strBytes (s : String) : Bytes :=
  s.toList.map Char.toNat

/-- The domain part of an email address (text after the last `@`, the whole
string when no `@` is present); used only on the specification side of
claims. -/
def addrDomain (a : String) : String :=
  String.mk ((takeUntil '@' a.toList.reverse).reverse)

/-- Left-biased choice on optional strings. -/
def optOr (a b : Option String) : Option String :=
  match a with
  | some x => some x
  | none => b

/-- Python `a or b` on optional strings: an empty string is falsy. -/
def pyOr (a b : Option String) : Option String :=
  match a with
  | some s => if s = "" then b else some s
  | none => b

/-! ## Reply-key derivation and metadata crypto (relay.utils, spec-modelled) -/

/-- Modelled from the spec: `get_message_id_bytes` lives in `relay.utils`,
which is not under src; per section 4.5 it deterministically turns the
message-id string into bytes. -/
def get_message_id_bytes (s : String) : Bytes :=
  strBytes s

/-- Modelled from the spec: `derive_reply_keys` lives in `relay.utils`, which
is not under src; per section 4.5 it is a deterministic derivation of an
independent `(lookupKey, encryptionKey)` pair from the message-id bytes. -/
def derive_reply_keys (b : Bytes) : Bytes × Bytes :=
  (0 :: b, 1 :: b)

/-- Modelled from the spec: `b64_lookup_key` lives in `relay.utils`, which is
not under src; per section 4.5 it renders the lookup key as a URL-safe
textual token. -/
def b64_lookup_key (k : Bytes) : String :=
  match k with
  | [] => ""
  | n :: rest => rest.foldl (fun acc m => acc ++ "-" ++ toString m) (toString n)

/-- Decrypted reply metadata: the JSON object as an association list. -/
abbrev Metadata := List (String × String)

/-- Dict lookup on metadata. -/
def mdGet (md : Metadata) (k : String) : Option String :=
  (md.find? (fun p => p.1 == k)).map (fun p => p.2)

/-- Dict insertion (later writes win, as for a Python dict). -/
def mdInsert (md : Metadata) (k v : String) : Metadata :=
  md.filter (fun p => !(p.1 == k)) ++ [(k, v)]

/-- An encrypted metadata blob.  Modelled from the spec (section 4.5): the
construction lives in `relay.utils`, not under src; authenticated encryption
is modelled by a tag binding the blob to the key it was produced under, and
decryption checks that tag. -/
structure EncryptedBlob where
  keyTag : Bytes
  payload : Metadata
  deriving Repr, DecidableEq

/-- Distinguished decryption failure. -/
inductive DecryptError
  | decryptionError
  deriving Repr, DecidableEq

/-- Modelled from the spec: `encrypt_reply_metadata` lives in `relay.utils`,
not under src; per section 4.5 it produces an opaque tamper-evident blob
under the encryption key. -/
def encrypt_reply_metadata (k : Bytes) (x : Metadata) : EncryptedBlob :=
  ⟨k, x⟩

/-- Modelled from the spec: `decrypt_reply_metadata` lives in `relay.utils`,
not under src; per section 4.5 it is the exact inverse of encryption and
fails with a DecryptionError, never returning partial data, when the key
does not match. -/
def decrypt_reply_metadata (k : Bytes) (b : EncryptedBlob) :
    Except DecryptError Metadata :=
  if b.keyTag = k then .ok b.payload else .error .decryptionError

/-- A stored reply record as returned by the directory API. -/
structure ReplyRecord where
  encrypted_metadata : EncryptedBlob
  deriving Repr, DecidableEq

/-! ## Data model of the inbound notification -/

/-- The `commonHeaders` object of the mail event; absent keys are `none`. -/
structure CommonHeaders where
  fromAddrs : Option (List String)
  toAddrs : Option (List String)
  ccAddrs : Option (List String)
  subject : Option String
  deriving Repr, DecidableEq

/-- The `mail` object of the decoded message body. -/
structure MailEvent where
  headers : List (String × String)
  commonHeaders : Option CommonHeaders
  deriving Repr, DecidableEq

/-- The `receipt.action` object. -/
structure ReceiptAction where
  actionType : Option String
  bucketName : Option String
  objectKey : Option String
  deriving Repr, DecidableEq

/-- The `receipt` object.  `dmarcVerdict` models `receipt["dmarcVerdict"]["status"]`
(collapsing the two lookups; `none` means the key chain is missing). -/
structure Receipt where
  recipients : List String
  action : Option ReceiptAction
  dmarcVerdict : Option String
  dmarcPolicy : Option String
  deriving Repr, DecidableEq

/-- The JSON-decoded `Message` body of an SNS notification. -/
structure SnsBody where
  notificationType : Option String
  eventType : Option String
  mail : Option MailEvent
  receipt : Option Receipt
  content : Option String
  deriving Repr, DecidableEq

/-- The outer SNS envelope (the queue item body).  `body` is the result of
JSON-decoding the `Message` field (`none` when it is not valid JSON). -/
structure SnsMessage where
  msgType : Option String
  topicArn : Option String
  message : Option String
  messageId : Option String
  subject : Option String
  timestamp : Option String
  signature : Option String
  signingCertURL : Option String
  subscribeURL : Option String
  token : Option String
  body : Option SnsBody
  deriving Repr, DecidableEq

/-- One node of the walked MIME tree.  `content = none` models
`part.get_content()` raising (the KeyError the source catches and skips). -/
structure MimePart where
  isAttachment : Bool
  filename : String
  payload : Bytes
  contentType : String
  content : Option String
  deriving Repr, DecidableEq

/-- A parsed email message (`email.message_from_bytes` result).  A multipart
message is the sequence of walked parts; a non-multipart message is a single
content type with its decoded content. -/
inductive EmailMessage
  | multipart (parts : List MimePart)
  | single (contentType : String) (content : String)
  deriving Repr, DecidableEq

/-- The `(text?, html?, attachments)` triple produced by extraction. -/
abbrev Extracted := Option String × Option String × List (String × Bytes)

/-- The outbound message body dict (`Html`/`Text` entries, data only; the
charset is the constant UTF-8). -/
structure MessageBody where
  html : Option String
  text : Option String
  deriving Repr, DecidableEq

/-- Observable calls issued to the external collaborators. -/
inductive Effect
  | send (fromAddr toAddr subject : String) (body : MessageBody)
      (attachments : List (String × Bytes))
  | storeReply (lookup : String) (encryptedMetadata : EncryptedBlob)
  | s3Delete (bucket objectKey : Option String)
  deriving Repr, DecidableEq

/-- What a handler returns: either a status dict (`status_code`/`message`)
or the bare boolean that `ses_send_raw_email` returns. -/
inductive HandleResult
  | status (statusCode : Nat) (message : String)
  | sent (ok : Bool)
  deriving Repr, DecidableEq

/-- `response["status_code"]` in Python: subscripting a bool raises TypeError. -/
def result_status_code : HandleResult → Except PyExc Nat
  | .status c _ => .ok c
  | .sent _ => .error .typeError

/-- Behaviour of the external collaborators during one handling run. -/
structure Env where
  get_to_address : String → Option String
  s3Get : Option String → Option String → Except S3Err Bytes
  parseMime : Bytes → EmailMessage
  urlize : String → String
  sendOutcome : SendOutcome
  get_reply_record : String → Option ReplyRecord
  reply_allowed : String → String → Bool

/-- Behaviour of the collaborators of signature verification. -/
structure CertEnv where
  fetch : String → String
  pemCount : String → Nat
  loadCert : String → Except Unit Nat
  b64decode : String → Except Unit Bytes
  cryptoVerify : Nat → Bytes → String → Bool

/-! ## Recipient resolution (message.py lines 115-121 and 172-186) -/

/-- Inner loop of `get_recipient_with_relay_domain`: first configured domain
occurring in the recipient string. -/
def first_domain_match (r : String) : List String → Option String
  | [] => none
  | d :: rest => if strIncludes r d then some r else first_domain_match r rest

/-- `Message.get_recipient_with_relay_domain`: the first recipient that
contains a relay domain (Python `domain in recipient`). -/
def get_recipient_with_relay_domain : List String → Option String
  | [] => none
  | r :: rest =>
    match first_domain_match r RELAY_DOMAINS with
    | some x => some x
    | none => get_recipient_with_relay_domain rest

/-- Fallback of `get_relay_recipient` to `receipt["recipients"]`; the result
is returned verbatim (no parseaddr), and a missing receipt raises. -/
def relay_recipient_fallback (receipt : Option Receipt) :
    Except PyExc (Option String) :=
  match receipt with
  | none => .error .typeError
  | some r => .ok (get_recipient_with_relay_domain r.recipients)

/-- Second iteration (`"cc"`) of the loop in `get_relay_recipient`. -/
def get_relay_recipient_cc (ch : CommonHeaders) (receipt : Option Receipt) :
    Except PyExc (Option String) :=
  match ch.ccAddrs with
  | some ccs =>
    match get_recipient_with_relay_domain ccs with
    | some r => .ok (some (parseaddr_addr r))
    | none => relay_recipient_fallback receipt
  | none => relay_recipient_fallback receipt

/-- `Message.get_relay_recipient`: check common headers `to` then `cc`,
stripping the display name of a match; otherwise fall back to the receipt
recipient list. -/
def get_relay_recipient (ch : CommonHeaders) (receipt : Option Receipt) :
    Except PyExc (Option String) :=
  match ch.toAddrs with
  | some tos =>
    match get_recipient_with_relay_domain tos with
    | some r => .ok (some (parseaddr_addr r))
    | none => get_relay_recipient_cc ch receipt
  | none => get_relay_recipient_cc ch receipt

/-! ## Locating the backing blob (message.py lines 188-207) -/

/-- `Message.get_bucket_and_key_from_s3_json`: recover `(bucket, objectKey)`
from the receipt action when its type mentions S3; every failure mode is
logged and collapses to `none` components. -/
def get_bucket_and_key_from_s3_json (body : SnsBody) :
    Option String × Option String :=
  match body.receipt with
  | none => (none, none)
  | some r =>
    match r.action with
    | none => (none, none)
    | some a =>
      match a.actionType with
      | none => (none, none)
      | some t =>
        if strIncludes t "S3" then
          match a.bucketName with
          | none => (none, none)
          | some b =>
            match a.objectKey with
            | none => (some b, none)
            | some k => (some b, some k)
        else (none, none)

/-! ## Content extraction (message.py lines 219-262) -/

/-- One step of the walk in `get_all_contents`: attachments are collected,
a part whose content does not decode is skipped, and each `text/plain` or
`text/html` part overwrites the corresponding slot. -/
def extract_step (acc : Extracted) (p : MimePart) : Extracted :=
  let t := acc.1
  let h := acc.2.1
  let atts := acc.2.2
  if p.isAttachment then (t, h, atts ++ [(p.filename, p.payload)])
  else
    match p.content with
    | none => (t, h, atts)
    | some c =>
      (if p.contentType = "text/plain" then some c else t,
       if p.contentType = "text/html" then some c else h,
       atts)

/-- `Message.get_all_contents`. -/
def get_all_contents (urlize : String → String) (msg : EmailMessage) :
    Extracted :=
  match msg with
  | .multipart parts =>
    let acc := parts.foldl extract_step (none, none, [])
    match acc.1, acc.2.1 with
    | some tc, none => (some tc, some (urlize tc), acc.2.2)
    | _, _ => (acc.1, acc.2.1, acc.2.2)
  | .single ct c =>
    let t := if ct = "text/plain" then some c else none
    let h0 := if ct = "text/plain" then some (urlize c) else none
    let h := if ct = "text/html" then some c else h0
    (t, h, [])

/-- `Message.sns_message_content`: the inline `content` field utf-8 encoded,
or `none` when absent. -/
def sns_message_content (body : SnsBody) : Option Bytes :=
  body.content.map strBytes

/-- The 10 MiB raw-size limit checked in `get_text_html_attachments`. -/
def contentSizeLimit : Nat := 10485760

/-- `Message.get_text_html_attachments`: take the inline content when
present, otherwise fetch the blob from S3 and enforce the size limit on
what was fetched, then parse and extract. -/
def get_text_html_attachments (env : Env) (body : SnsBody) :
    Except ExtractErr Extracted :=
  match sns_message_content body with
  | none =>
    let bk := get_bucket_and_key_from_s3_json body
    match env.s3Get bk.1 bk.2 with
    | .error .noSuchKey => .error .s3NoSuchKey
    | .error .other => .error .s3Other
    | .ok mc =>
      if mc.length > contentSizeLimit then .error .tooBigFile
      else .ok (get_all_contents env.urlize (env.parseMime mc))
  | some mc => .ok (get_all_contents env.urlize (env.parseMime mc))

/-! ## Forward-path wrapping (message.py lines 264-273 and 322-335) -/

/-- Modelled from the spec: the banner markup of templates/wrapped_email.html
is not under src; per section 4.7 the outbound HTML is a fixed banner
template with the original HTML embedded. -/
def wrapped_email_banner : String := "<div>relay banner</div>"

/-- Modelled from the spec: closing markup of the banner template. -/
def wrapped_email_footer : String := "<div>relay footer</div>"

/-- `Message.wrap_html_email`, rendering the banner template around the
original HTML. -/
def wrap_html_email (original_html : String) : String :=
  wrapped_email_banner ++ original_html ++ wrapped_email_footer

/-- The fixed attachment notice prepended to forwarded text bodies. -/
def attachment_msg : String :=
  "Locker Private Email supports email forwarding (including attachments) of email up to 150KB in size.\n"

/-- The relay header prepended to forwarded text bodies, with the alias
substituted. -/
def relay_header_text (alias0 : String) : String :=
  "This email was sent to your alias " ++ alias0 ++
  ". To stop receiving emails sent to this alias, update the forwarding settings in your dashboard.\n" ++
  attachment_msg ++ "---Begin Email---\n"

/-- Modelled from the spec: `generate_relay_from` lives in `relay.utils`, not
under src; per section 4.7 step 4 it preserves the original sender identity
while using the service sending domain. -/
def generate_relay_from (from_address : String) : String :=
  from_address ++ " <" ++ RELAY_FROM_ADDRESS ++ ">"

/-! ## Reply-record persistence (locker_api.py) and SES send (ses.py) -/

/-- The header subset copied into reply metadata by `store_reply_record`
(case-insensitive names, later headers overwriting earlier ones). -/
def reply_metadata_of_mail (headers : List (String × String)) : Metadata :=
  headers.foldl
    (fun acc h =>
      if ["message-id", "from", "reply-to", "to"].contains (pyLower h.1)
      then mdInsert acc (pyLower h.1) h.2 else acc)
    []

/-- `store_reply_record` (locker_api.py): derive the key pair from the new
outbound message id and post `(lookup, encrypted_metadata)` to the store. -/
def store_reply_record (mail : MailEvent) (responseMessageId : String) :
    Effect :=
  let md := reply_metadata_of_mail mail.headers
  let keys := derive_reply_keys (get_message_id_bytes responseMessageId)
  .storeReply (b64_lookup_key keys.1) (encrypt_reply_metadata keys.2 md)

/-- `SES.ses_send_raw_email` (ses.py): one raw send; on success call
`store_reply_record(mail, response)` and return True, on ClientError return
False.  The `mail` argument can be None: `handle_reply` passes seven
positional arguments, so None lands in `mail` and the mail event in the
`reply_address` slot (message.py line 170).  With `mail` None, a successful
send makes `store_reply_record` subscript None for its headers and raise a
TypeError that the except clause (ClientError only) does not catch, so no
reply record is stored and the exception escapes.  The `reply_address` MIME
header is not observable in this effect model and is not embedded. -/
def ses_send_raw_email (outcome : SendOutcome)
    (from_address to_address subject : String) (body : MessageBody)
    (atts : List (String × Bytes)) (mail : Option MailEvent) :
    List Effect × Except PyExc HandleResult :=
  match outcome with
  | .ok mid =>
    match mail with
    | some m =>
      ([.send from_address to_address subject body atts,
        store_reply_record m mid], .ok (.sent true))
    | none =>
      ([.send from_address to_address subject body atts], .error .typeError)
  | .clientError =>
    ([.send from_address to_address subject body atts], .ok (.sent false))

/-- Modelled from the spec: `ses_relay_email` is defined in `relay.aws`,
which is not under src.  Per section 4.7 steps 5-6 and section 7 it performs
one outbound send, on success stores exactly one reply record via
`store_reply_record` keyed by the provider message id, and reports a
classified status (success below 500, provider failure as server-side). -/
def ses_relay_email (outcome : SendOutcome)
    (from_address to_address subject : String) (body : MessageBody)
    (atts : List (String × Bytes)) (mail : MailEvent) :
    List Effect × HandleResult :=
  match outcome with
  | .ok mid =>
    ([.send from_address to_address subject body atts,
      store_reply_record mail mid], .status 200 "Sent")
  | .clientError =>
    ([.send from_address to_address subject body atts],
     .status 503 "SES client error")

/-! ## Reply protocol (message.py lines 123-170) -/

/-- Raised by `get_keys_from_headers` when no In-Reply-To header exists. -/
inductive ReplyKeysErr
  | inReplyToNotFound
  deriving Repr, DecidableEq

/-- `Message.get_keys_from_headers`: scan raw headers case-insensitively for
In-Reply-To and derive the reply key pair from it. -/
def get_keys_from_headers (headers : List (String × String)) :
    Except ReplyKeysErr (Bytes × Bytes) :=
  match headers.find? (fun h => pyLower h.1 == "in-reply-to") with
  | some h => .ok (derive_reply_keys (get_message_id_bytes h.2))
  | none => .error .inReplyToNotFound

/-- `get_reply_record_from_lookup_key` (locker_api.py): render the lookup key
and read the record from the external store. -/
def get_reply_record_from_lookup_key (env : Env) (lookup_key : Bytes) :
    Option ReplyRecord :=
  env.get_reply_record (b64_lookup_key lookup_key)

/-- Modelled from the spec: `extract_email_from_string` lives in
`relay.utils`, not under src; per section 4.6 step 5 it reduces the value to
a bare email address. -/
def extract_email_from_string (s : String) : String :=
  parseaddr_addr s

/-- `Message.handle_reply`.  Its final step returns whatever
`ses_send_raw_email` returns — a bare boolean on a failed send — and its
call at message.py lines 169-170 is positional, placing None in that
function's `mail` parameter and `sns_mail` in `reply_address`. -/
def handle_reply (env : Env) (body : SnsBody) (mail : MailEvent)
    (ch : CommonHeaders) (from_address : String) :
    List Effect × Except PyExc HandleResult :=
  match get_keys_from_headers mail.headers with
  | .error _ => ([], .ok (.status 400 "No In-Reply-To header"))
  | .ok keys =>
    match get_reply_record_from_lookup_key env keys.1 with
    | none => ([], .ok (.status 400 "Unknown or stale In-Reply-To header"))
    | some reply_record =>
      match decrypt_reply_metadata keys.2 reply_record.encrypted_metadata with
      | .error _ => ([], .error .decryptionError)
      | .ok decrypted_metadata =>
        let subject := ch.subject.getD ""
        match pyOr (mdGet decrypted_metadata "reply-to")
            (mdGet decrypted_metadata "from") with
        | none => ([], .error .typeError)
        | some toRaw =>
          let to_address := extract_email_from_string toRaw
          match mdGet decrypted_metadata "to" with
          | none => ([], .error .attributeError)
          | some toField =>
            let outbound_from_address :=
              pyStrip (String.mk (takeUntil ',' toField.toList))
            if env.reply_allowed from_address to_address then
              match get_text_html_attachments env body with
              | .error .tooBigFile =>
                ([], .ok (.status 400 "Attachments are larger than AWS allows"))
              | .error .s3NoSuchKey =>
                ([], .ok (.status 404 "Email not in S3"))
              | .error .s3Other =>
                ([], .ok (.status 503 "Cannot fetch the message content from S3"))
              | .ok ex =>
                let mbHtml :=
                  match ex.2.1 with
                  | some hc => if hc = "" then none else some hc
                  | none => none
                let mbText :=
                  match ex.1 with
                  | some tc => if tc = "" then none else some tc
                  | none => none
                ses_send_raw_email env.sendOutcome
                  outbound_from_address to_address subject
                  ⟨mbHtml, mbText⟩ ex.2.2 none
            else ([], .ok (.status 403 "Relay replies require a premium account"))

/-! ## Forward protocol and dispatcher (message.py lines 279-337, 417-432) -/

/-- `Message.handle_sns_message`. -/
def handle_sns_message (env : Env) (body : SnsBody) :
    List Effect × Except PyExc HandleResult :=
  if body.notificationType = some "Bounce" ∨ body.eventType = some "Bounce" then
    ([], .ok (.status 400 "We don\x27t handle bounce message"))
  else
    match body.mail with
    | none => ([], .error .attributeError)
    | some mail =>
      match mail.commonHeaders with
      | none => ([], .ok (.status 400 "Received SNS notification without commonHeaders"))
      | some ch =>
        match body.receipt with
        | none => ([], .error .typeError)
        | some receipt =>
          match receipt.dmarcVerdict with
          | none => ([], .error .keyError)
          | some verdict =>
            if verdict = "FAIL" ∧ receipt.dmarcPolicy.getD "none" = "reject" then
              ([], .ok (.status 400 "DMARC failure, policy is reject"))
            else
              match get_relay_recipient ch body.receipt with
              | .error e => ([], .error e)
              | .ok none => ([], .ok (.status 400 "Address does not exist"))
              | .ok (some to_address) =>
                match ch.fromAddrs with
                | none => ([], .error .keyError)
                | some [] => ([], .error .indexError)
                | some (f :: _) =>
                  let from_address := parseaddr_addr f
                  if to_address = REPLY_EMAIL then
                    handle_reply env body mail ch from_address
                  else
                    match env.get_to_address to_address with
                    | none =>
                      ([], .ok (.status 400 ("Destination does not exist " ++ to_address)))
                    | some user_to_address =>
                      let subject := ch.subject.getD ""
                      match get_text_html_attachments env body with
                      | .error .tooBigFile =>
                        ([], .ok (.status 400 "Attachments are larger than AWS allows"))
                      | .error .s3NoSuchKey =>
                        ([], .ok (.status 404 "Email not in S3"))
                      | .error .s3Other =>
                        ([], .ok (.status 503 "Cannot fetch the message content from S3"))
                      | .ok ex =>
                        let mbHtml :=
                          match ex.2.1 with
                          | some hc =>
                            if hc = "" then none
                            else some (wrap_html_email hc)
                          | none => none
                        let mbText :=
                          match ex.1 with
                          | some tc =>
                            if tc = "" then none
                            else some (relay_header_text to_address ++ tc)
                          | none => none
                        let sr := ses_relay_email env.sendOutcome
                          (generate_relay_from from_address) user_to_address
                          subject ⟨mbHtml, mbText⟩ ex.2.2 mail
                        (sr.1, .ok sr.2)

/-- The rejection condition of `sns_notification` line 421: Python
`notificationType not in ["Received", "Bounce"] and eventType != "Bounce"`. -/
def unsupported_type_gate (body : SnsBody) : Bool :=
  decide (body.notificationType ∉ [some "Received", some "Bounce"]) &&
  decide (body.eventType ≠ some "Bounce")

/-- The handling-plus-cleanup tail of `sns_notification`: run the handler,
then delete the backing blob exactly when the status code is below 500. -/
def notification_handle_and_cleanup (env : Env) (body : SnsBody) :
    List Effect × Except PyExc HandleResult :=
  let hr := handle_sns_message env body
  match hr.2 with
  | .error e => (hr.1, .error e)
  | .ok r =>
    let bk := get_bucket_and_key_from_s3_json body
    match result_status_code r with
    | .error e => (hr.1, .error e)
    | .ok c =>
      if c < 500 then (hr.1 ++ [.s3Delete bk.1 bk.2], .ok r)
      else (hr.1, .ok r)

/-- `Message.sns_notification`.  In the rejection branch a missing
`notificationType` raises (Python `shlex.quote(None)`); quoting and HTML
escaping are identities on the plain type names that occur here. -/
def sns_notification (env : Env) (msg : SnsMessage) :
    List Effect × Except PyExc HandleResult :=
  match msg.body with
  | none => ([], .ok (.status 400 "Received SNS notification with non-JSON body"))
  | some body =>
    if unsupported_type_gate body then
      match body.notificationType with
      | none => ([], .error .typeError)
      | some nt =>
        ([], .ok (.status 400 ("Received SNS notification for unsupported Type: " ++ nt)))
    else notification_handle_and_cleanup env body

/-! ## Signature verification (message.py lines 339-376) -/

/-- The fixed certificate-host prefix required by `grab_keyfile`. -/
def cert_url_origin (region : String) : String :=
  "https://sns." ++ region ++ ".amazonaws.com/"

/-- `Message.grab_keyfile`: the list component records which URLs were
fetched; the option component is the accepted PEM file. -/
def grab_keyfile (cenv : CertEnv) (region : String) (cert_url : String) :
    List String × Option String :=
  if strStartsWith cert_url (cert_url_origin region) then
    let pem_file := cenv.fetch cert_url
    if cenv.pemCount pem_file = 1 then ([cert_url], some pem_file)
    else ([cert_url], none)
  else ([], none)

/-- Required field of a format dict: missing raises KeyError. -/
def reqField : Option String → Except PyExc String
  | none => .error .keyError
  | some s => .ok s

/-- NOTIFICATION_HASH_FORMAT applied to the envelope. -/
def notification_hash_string (msg : SnsMessage) : Except PyExc String := do
  let m ← reqField msg.message
  let mid ← reqField msg.messageId
  let sub ← reqField msg.subject
  let ts ← reqField msg.timestamp
  let ta ← reqField msg.topicArn
  let ty ← reqField msg.msgType
  .ok ("Message\n" ++ m ++ "\nMessageId\n" ++ mid ++ "\nSubject\n" ++ sub ++
    "\nTimestamp\n" ++ ts ++ "\nTopicArn\n" ++ ta ++ "\nType\n" ++ ty ++ "\n")

/-- NOTIFICATION_WITHOUT_SUBJECT_HASH_FORMAT applied to the envelope. -/
def notification_without_subject_hash_string (msg : SnsMessage) :
    Except PyExc String := do
  let m ← reqField msg.message
  let mid ← reqField msg.messageId
  let ts ← reqField msg.timestamp
  let ta ← reqField msg.topicArn
  let ty ← reqField msg.msgType
  .ok ("Message\n" ++ m ++ "\nMessageId\n" ++ mid ++ "\nTimestamp\n" ++ ts ++
    "\nTopicArn\n" ++ ta ++ "\nType\n" ++ ty ++ "\n")

/-- SUBSCRIPTION_HASH_FORMAT applied to the envelope. -/
def subscription_hash_string (msg : SnsMessage) : Except PyExc String := do
  let m ← reqField msg.message
  let mid ← reqField msg.messageId
  let su ← reqField msg.subscribeURL
  let ts ← reqField msg.timestamp
  let tk ← reqField msg.token
  let ta ← reqField msg.topicArn
  let ty ← reqField msg.msgType
  .ok ("Message\n" ++ m ++ "\nMessageId\n" ++ mid ++ "\nSubscribeURL\n" ++ su ++
    "\nTimestamp\n" ++ ts ++ "\nToken\n" ++ tk ++ "\nTopicArn\n" ++ ta ++
    "\nType\n" ++ ty ++ "\n")

/-- `Message.get_hash_format` followed by `.format(**self.sns_message)`. -/
def get_hash_string (msg : SnsMessage) : Except PyExc String :=
  if msg.msgType = some "Notification" then
    if msg.subject.isSome then notification_hash_string msg
    else notification_without_subject_hash_string msg
  else subscription_hash_string msg

/-- `Message.verify_from_sns`.  Only `crypto.verify` runs inside the
try/except; failures of certificate loading or signature decoding escape. -/
def verify_from_sns (cenv : CertEnv) (region : String) (msg : SnsMessage) :
    Except PyExc Bool :=
  match msg.signingCertURL with
  | none => .error .keyError
  | some cert_url =>
    match (grab_keyfile cenv region cert_url).2 with
    | none => .ok false
    | some pem_file =>
      match cenv.loadCert pem_file with
      | .error _ => .error .cryptoError
      | .ok cert =>
        match msg.signature with
        | none => .error .keyError
        | some sigStr =>
          match cenv.b64decode sigStr with
          | .error _ => .error .binasciiError
          | .ok sigBytes =>
            match get_hash_string msg with
            | .error e => .error e
            | .ok canonical =>
              if cenv.cryptoVerify cert sigBytes canonical then .ok true
              else .ok false

/-! ## Specification-side definitions used to state the claims -/

/-- Whether a recipient string contains some configured relay domain. -/
def hasRelayDomain (r : String) : Bool :=
  RELAY_DOMAINS.any fun d => strIncludes r d

/-- The recipient-resolution behaviour stated declaratively: search the
common-header `to` list, then `cc`, stripping the display name of a match;
otherwise take the first matching receipt recipient verbatim. -/
def resolve_recipient_spec (ch : CommonHeaders) (receipt : Receipt) :
    Option String :=
  match (ch.toAddrs.getD []).find? hasRelayDomain with
  | some r => some (parseaddr_addr r)
  | none =>
    match (ch.ccAddrs.getD []).find? hasRelayDomain with
    | some r => some (parseaddr_addr r)
    | none => receipt.recipients.find? hasRelayDomain

/-- The decoded content a non-attachment part of the given content type
contributes. -/
def partTextOf (ctype : String) (p : MimePart) : Option String :=
  if p.isAttachment = false ∧ p.contentType = ctype then p.content else none

/-- The content of the last non-attachment part of the given type whose
content decodes. -/
def lastPartContent (ctype : String) : List MimePart → Option String
  | [] => none
  | p :: rest => optOr (lastPartContent ctype rest) (partTextOf ctype p)

/-- The attachments of a part list, in walk order. -/
def partsAttachments : List MimePart → List (String × Bytes)
  | [] => []
  | p :: rest =>
    if p.isAttachment then (p.filename, p.payload) :: partsAttachments rest
    else partsAttachments rest

/-- Declarative description of multipart extraction: last part of each type
wins; HTML is synthesised from text when only text was found. -/
def multipart_extract_spec (urlize : String → String)
    (parts : List MimePart) : Extracted :=
  match lastPartContent "text/plain" parts, lastPartContent "text/html" parts with
  | some tc, none => (some tc, some (urlize tc), partsAttachments parts)
  | t, h => (t, h, partsAttachments parts)

/-- The HTML bodies of the outbound send calls in an effect list. -/
def sendHtmls (effs : List Effect) : List (Option String) :=
  effs.filterMap fun e =>
    match e with
    | .send _ _ _ b _ => some b.html
    | _ => none

/-- The lookup keys of the reply-record stores in an effect list. -/
def storeKeys (effs : List Effect) : List String :=
  effs.filterMap fun e =>
    match e with
    | .storeReply k _ => some k
    | _ => none

/-! ## Concrete instances used by witnesses and counterexamples -/

/-- An environment whose collaborators all answer negatively; the per-claim
instances below override the fields they need. -/
def idleEnv : Env where
  get_to_address := fun _ => none
  s3Get := fun _ _ => .error .other
  parseMime := fun _ => .single "text/plain" "t"
  urlize := fun s => s
  sendOutcome := .clientError
  get_reply_record := fun _ => none
  reply_allowed := fun _ _ => false

def ch1 : CommonHeaders where
  fromAddrs := some ["sender@example.com"]
  toAddrs := some ["alias1@maily.org"]
  ccAddrs := none
  subject := some "Hi"

def mail1 : MailEvent where
  headers := [("From", "sender@example.com")]
  commonHeaders := some ch1

def receipt1 : Receipt where
  recipients := []
  action := none
  dmarcVerdict := some "PASS"
  dmarcPolicy := none

def body1 : SnsBody where
  notificationType := some "Received"
  eventType := none
  mail := some mail1
  receipt := some receipt1
  content := some "rawmail"

def env1 : Env :=
  { idleEnv with
    get_to_address := fun a =>
      if a = "alias1@maily.org" then some "dest@example.com" else none
    parseMime := fun _ => .multipart
      [{ isAttachment := false, filename := "", payload := [],
         contentType := "text/html", content := some "ORIGINAL" }]
    sendOutcome := .ok "new-mid-001" }

def md2 : Metadata := [("from", "real@example.com"), ("to", "alias1@maily.org")]

def origKeys2 : Bytes × Bytes := derive_reply_keys (get_message_id_bytes "orig-mid")

def ch2 : CommonHeaders where
  fromAddrs := some ["customer@example.com"]
  toAddrs := some ["replies@maily.org"]
  ccAddrs := none
  subject := some "Re: hi"

def mail2 : MailEvent where
  headers := [("In-Reply-To", "orig-mid")]
  commonHeaders := some ch2

def receipt2 : Receipt where
  recipients := []
  action := none
  dmarcVerdict := some "PASS"
  dmarcPolicy := none

def body2 : SnsBody where
  notificationType := some "Received"
  eventType := none
  mail := some mail2
  receipt := some receipt2
  content := some "raw"

def msg2 : SnsMessage where
  msgType := some "Notification"
  topicArn := none
  message := none
  messageId := none
  subject := none
  timestamp := none
  signature := none
  signingCertURL := none
  subscribeURL := none
  token := none
  body := some body2

def env2 : Env :=
  { idleEnv with
    get_reply_record := fun l =>
      if l = b64_lookup_key origKeys2.1 then
        some ⟨encrypt_reply_metadata origKeys2.2 md2⟩
      else none
    reply_allowed := fun _ _ => true
    parseMime := fun _ => .single "text/plain" "hello"
    sendOutcome := .ok "new-mid-002" }

def env2f : Env := { env2 with sendOutcome := .clientError }

def bigInline : String := String.mk (List.replicate 10485761 'a')

def body3 : SnsBody where
  notificationType := some "Received"
  eventType := none
  mail := none
  receipt := none
  content := some bigInline

def env3 : Env := idleEnv

def body3w : SnsBody where
  notificationType := some "Received"
  eventType := none
  mail := none
  receipt := none
  content := none

def env3w : Env := { idleEnv with s3Get := fun _ _ => .ok [1, 2, 3] }

def cenv5 : CertEnv where
  fetch := fun _ => "PEMDATA"
  pemCount := fun _ => 1
  loadCert := fun _ => .error ()
  b64decode := fun _ => .ok []
  cryptoVerify := fun _ _ _ => false

def msg5 : SnsMessage where
  msgType := some "Notification"
  topicArn := some "arn"
  message := some "m"
  messageId := some "id"
  subject := none
  timestamp := some "ts"
  signature := some "sig"
  signingCertURL := some "https://sns.us-east-1.amazonaws.com/cert.pem"
  subscribeURL := none
  token := none
  body := none

def cenv5w : CertEnv :=
  { cenv5 with loadCert := fun _ => .ok 7 }

def msg5wBad : SnsMessage :=
  { msg5 with signingCertURL := some "http://attacker.example/cert.pem" }

def cenv6 : CertEnv := cenv5w

def msg6 : SnsMessage :=
  { msg5 with signingCertURL := some "http://attacker.example/" }

def cenv6two : CertEnv :=
  { cenv5w with pemCount := fun _ => 2 }

def msg6two : SnsMessage :=
  { msg5 with signingCertURL := some "https://sns.us-east-1.amazonaws.com/x" }

def ch7 : CommonHeaders where
  fromAddrs := none
  toAddrs := some ["x@other.org"]
  ccAddrs := none
  subject := none

def receipt7 : Receipt where
  recipients := ["Bob <a@maily.org>"]
  action := none
  dmarcVerdict := none
  dmarcPolicy := none

def ch7b : CommonHeaders where
  fromAddrs := none
  toAddrs := some ["b@maily.org.evil.com"]
  ccAddrs := none
  subject := none

def receipt7b : Receipt where
  recipients := []
  action := none
  dmarcVerdict := none
  dmarcPolicy := none

def body8 : SnsBody where
  notificationType := some "Open"
  eventType := some "Received"
  mail := none
  receipt := none
  content := none

def msg8 : SnsMessage :=
  { msg2 with body := some body8 }

def env8 : Env := idleEnv

def body8w : SnsBody where
  notificationType := some "Received"
  eventType := none
  mail := none
  receipt := none
  content := none

def msg8w : SnsMessage :=
  { msg2 with body := some body8w }

def env8w : Env := idleEnv

def parts9 : List MimePart :=
  [{ isAttachment := false, filename := "", payload := [],
     contentType := "text/plain", content := some "A" },
   { isAttachment := false, filename := "", payload := [],
     contentType := "text/plain", content := some "B" }]

def ch10 : CommonHeaders where
  fromAddrs := some ["sender@example.com"]
  toAddrs := some ["alias1@maily.org"]
  ccAddrs := none
  subject := none

def mail10 : MailEvent where
  headers := []
  commonHeaders := some ch10

def receipt10 : Receipt where
  recipients := []
  action := none
  dmarcVerdict := none
  dmarcPolicy := none

def body10 : SnsBody where
  notificationType := some "Received"
  eventType := none
  mail := some mail10
  receipt := some receipt10
  content := none

def env10 : Env := idleEnv

/-! ## Helper lemmas -/

theorem isPrefixOf_self_append (l t : List Char) :
    l.isPrefixOf (l ++ t) = true := by
  induction l with
  | nil => simp
  | cons c r ih => simp [ih]

theorem containsSub_middle (l s t : List Char) :
    containsSub l (s ++ (l ++ t)) = true := by
  induction s with
  | nil =>
    cases l with
    | nil =>
      cases t with
      | nil => rfl
      | cons c r => rfl
    | cons a as => simp [containsSub, isPrefixOf_self_append]
  | cons c srest ih => simp [containsSub, ih]

theorem toList_append (a b : String) :
    (a ++ b).toList = a.toList ++ b.toList := rfl

theorem strIncludes_wrap_contains (h : String) :
    strIncludes (wrap_html_email h) h = true := by
  have e : (wrap_html_email h).toList =
      wrapped_email_banner.toList ++ (h.toList ++ wrapped_email_footer.toList) := by
    rw [wrap_html_email, toList_append, toList_append, List.append_assoc]
  rw [strIncludes, e]
  exact containsSub_middle _ _ _

/-! ## C4 -/

/-- C4: decrypting an encrypted metadata blob with the same key returns the
metadata exactly; decrypting it with any other key fails with a
DecryptionError and never returns a value. -/
theorem c4_metadata_roundtrip (k k2 : Bytes) (x : Metadata) (hne : k2 ≠ k) :
    decrypt_reply_metadata k (encrypt_reply_metadata k x) = .ok x ∧
    decrypt_reply_metadata k2 (encrypt_reply_metadata k x) =
      .error .decryptionError := by
  constructor
  · simp [decrypt_reply_metadata, encrypt_reply_metadata]
  · simp only [decrypt_reply_metadata, encrypt_reply_metadata]
    rw [if_neg (fun hk => hne hk.symm)]

theorem c4_metadata_roundtrip_witness :
    decrypt_reply_metadata [1] (encrypt_reply_metadata [1] [("from", "a@b.c")]) =
      .ok [("from", "a@b.c")] ∧
    decrypt_reply_metadata [2] (encrypt_reply_metadata [1] [("from", "a@b.c")]) =
      .error .decryptionError :=
  c4_metadata_roundtrip [1] [2] [("from", "a@b.c")] (by decide)

/-! ## C10 -/

/-- C10: a non-Bounce notification with commonHeaders present whose receipt
lacks a dmarcVerdict entry makes handle_sns_message raise an uncaught
KeyError instead of returning a status result. -/
theorem c10_missing_dmarc_keyerror (env : Env) (body : SnsBody)
    (mail : MailEvent) (ch : CommonHeaders) (receipt : Receipt)
    (hnt : body.notificationType ≠ some "Bounce")
    (het : body.eventType ≠ some "Bounce")
    (hmail : body.mail = some mail)
    (hch : mail.commonHeaders = some ch)
    (hrc : body.receipt = some receipt)
    (hdv : receipt.dmarcVerdict = none) :
    handle_sns_message env body = ([], .error .keyError) := by
  have hcond : ¬(body.notificationType = some "Bounce" ∨
      body.eventType = some "Bounce") := by
    rintro (h | h)
    · exact hnt h
    · exact het h
  simp only [handle_sns_message, if_neg hcond, hmail, hch, hrc, hdv]

theorem c10_missing_dmarc_keyerror_witness :
    handle_sns_message env10 body10 = ([], .error .keyError) :=
  c10_missing_dmarc_keyerror env10 body10 mail10 ch10 receipt10
    (by decide) (by decide) rfl rfl rfl rfl

/-! ## C6 -/

/-- C6: a SigningCertURL that does not start with the fixed host prefix is
rejected with no network fetch performed, and a fetched PEM response with a
certificate count other than one is rejected. -/
theorem c6_cert_url_gate (cenv : CertEnv) (region url : String)
    (msg : SnsMessage) (hurl : msg.signingCertURL = some url) :
    (strStartsWith url (cert_url_origin region) = false →
      (grab_keyfile cenv region url).1 = [] ∧
      verify_from_sns cenv region msg = .ok false) ∧
    (cenv.pemCount (cenv.fetch url) ≠ 1 →
      verify_from_sns cenv region msg = .ok false) := by
  constructor
  · intro hpre
    have hg : grab_keyfile cenv region url = ([], none) := by
      simp [grab_keyfile, hpre]
    constructor
    · rw [hg]
    · simp [verify_from_sns, hurl, hg]
  · intro hn
    cases hpre : strStartsWith url (cert_url_origin region) with
    | false =>
      have hg : grab_keyfile cenv region url = ([], none) := by
        simp [grab_keyfile, hpre]
      simp [verify_from_sns, hurl, hg]
    | true =>
      have hg : grab_keyfile cenv region url = ([url], none) := by
        simp [grab_keyfile, hpre, hn]
      simp [verify_from_sns, hurl, hg]

theorem c6_cert_url_gate_witness :
    ((grab_keyfile cenv6 "us-east-1" "http://attacker.example/").1 = [] ∧
      verify_from_sns cenv6 "us-east-1" msg6 = .ok false) ∧
    verify_from_sns cenv6two "us-east-1" msg6two = .ok false :=
  ⟨(c6_cert_url_gate cenv6 "us-east-1" "http://attacker.example/" msg6 rfl).1 rfl,
   (c6_cert_url_gate cenv6two "us-east-1" "https://sns.us-east-1.amazonaws.com/x"
      msg6two rfl).2 (by decide)⟩

/-! ## C5 -/

/-- C5 counterexample: on an envelope whose certificate passes grab_keyfile
as a single PEM block but fails certificate loading, verify_from_sns raises
a crypto error instead of returning False, so an exception escapes the
verification boundary. -/
theorem c5_counterexample :
    verify_from_sns cenv5 "us-east-1" msg5 = .error .cryptoError := rfl

/-- C5 amended: verification returns False when the certificate URL or PEM
check rejects, and the final signature-verification call is the only step
whose crypto errors are caught (yielding the boolean outcome); failures
while loading the certificate propagate as exceptions. -/
theorem c5_amended_verify_boundary (cenv : CertEnv) (region : String)
    (msg : SnsMessage) (url : String)
    (hurl : msg.signingCertURL = some url) :
    ((grab_keyfile cenv region url).2 = none →
      verify_from_sns cenv region msg = .ok false) ∧
    (∀ pemf cert sigStr sigBytes canonical,
      (grab_keyfile cenv region url).2 = some pemf →
      cenv.loadCert pemf = .ok cert →
      msg.signature = some sigStr →
      cenv.b64decode sigStr = .ok sigBytes →
      get_hash_string msg = .ok canonical →
      verify_from_sns cenv region msg =
        .ok (cenv.cryptoVerify cert sigBytes canonical)) ∧
    (∀ pemf, (grab_keyfile cenv region url).2 = some pemf →
      cenv.loadCert pemf = .error () →
      verify_from_sns cenv region msg = .error .cryptoError) := by
  refine ⟨?_, ?_, ?_⟩
  · intro hg
    simp [verify_from_sns, hurl, hg]
  · intro pemf cert sigStr sigBytes canonical hg hl hs hb hc
    simp only [verify_from_sns, hurl, hg, hl, hs, hb, hc]
    cases hv : cenv.cryptoVerify cert sigBytes canonical <;> simp [hv]
  · intro pemf hg hl
    simp [verify_from_sns, hurl, hg, hl]

theorem c5_amended_verify_boundary_witness :
    verify_from_sns cenv5w "us-east-1" msg5wBad = .ok false :=
  (c5_amended_verify_boundary cenv5w "us-east-1" msg5wBad
    "http://attacker.example/cert.pem" rfl).1 rfl

/-! ## C3 -/

/-- C3 counterexample: an inline payload one byte over the 10 MiB limit is
extracted without a SizeLimitError, refuting the claim that extraction
raises if and only if the byte length exceeds the limit regardless of the
content source. -/
theorem c3_counterexample :
    contentSizeLimit < (strBytes bigInline).length ∧
    get_text_html_attachments env3 body3 = .ok (some "t", some "t", []) := by
  constructor
  · have hlen : (strBytes bigInline).length = 10485761 := by
      simp only [strBytes, bigInline, String.toList, List.length_map,
        List.length_replicate]
    rw [hlen, contentSizeLimit]
    omega
  · rfl

/-- C3 amended: extraction raises the size error exactly when the content was
fetched from blob storage (no inline content) and the fetched byte string is
longer than 10485760; inline content is never size-checked. -/
theorem c3_amended_size_gate (env : Env) (body : SnsBody) :
    (∀ bs : Bytes, body.content = none →
      env.s3Get (get_bucket_and_key_from_s3_json body).1
        (get_bucket_and_key_from_s3_json body).2 = .ok bs →
      (get_text_html_attachments env body = .error .tooBigFile ↔
        contentSizeLimit < bs.length)) ∧
    (∀ s : String, body.content = some s →
      get_text_html_attachments env body ≠ .error .tooBigFile) := by
  constructor
  · intro bs hc hs3
    have hmc : sns_message_content body = none := by
      simp [sns_message_content, hc]
    simp only [get_text_html_attachments, hmc, hs3]
    by_cases hlen : bs.length > contentSizeLimit
    · simp [hlen]
    · simp [hlen]
  · intro s hc
    have hmc : sns_message_content body = some (strBytes s) := by
      simp [sns_message_content, hc]
    simp [get_text_html_attachments, hmc]

theorem c3_amended_size_gate_witness :
    (get_text_html_attachments env3w body3w = .error .tooBigFile ↔
      contentSizeLimit < ([1, 2, 3] : Bytes).length) :=
  (c3_amended_size_gate env3w body3w).1 [1, 2, 3] rfl rfl

/-! ## C8 -/

/-- C8 counterexample: a body whose eventType is "Received" (with a
notificationType outside the supported set) is rejected with a 400, so
eventType "Received" does not satisfy the gate. -/
theorem c8_counterexample :
    sns_notification env8 msg8 =
      ([], .ok (.status 400
        ("Received SNS notification for unsupported Type: " ++ "Open"))) := rfl

/-- C8 amended: the gate is asymmetric: handling proceeds exactly when
notificationType is Received or Bounce, or eventType is Bounce; an eventType
of Received alone does not pass, and a rejected body produces no effects. -/
theorem c8_amended_gate (env : Env) (msg : SnsMessage) (body : SnsBody)
    (hbody : msg.body = some body) :
    (unsupported_type_gate body = false ↔
      (body.notificationType = some "Received" ∨
        body.notificationType = some "Bounce" ∨
        body.eventType = some "Bounce")) ∧
    (unsupported_type_gate body = false →
      sns_notification env msg = notification_handle_and_cleanup env body) ∧
    (unsupported_type_gate body = true → (sns_notification env msg).1 = []) := by
  refine ⟨?_, ?_, ?_⟩
  · constructor
    · intro hg
      by_contra hcon
      push_neg at hcon
      obtain ⟨h1, h2, h3⟩ := hcon
      have ht : unsupported_type_gate body = true := by
        simp [unsupported_type_gate, h1, h2, h3]
      rw [ht] at hg
      simp at hg
    · intro hcase
      rcases hcase with h | h | h <;> simp [unsupported_type_gate, h]
  · intro hg
    simp [sns_notification, hbody, hg]
  · intro hg
    cases hnt : body.notificationType <;>
      simp [sns_notification, hbody, hg, hnt]

theorem c8_amended_gate_witness :
    sns_notification env8w msg8w = notification_handle_and_cleanup env8w body8w :=
  (c8_amended_gate env8w msg8w body8w rfl).2.1 (by decide)

/-! ## C7 -/

theorem first_domain_match_eq (r : String) :
    first_domain_match r RELAY_DOMAINS =
      (if hasRelayDomain r then some r else none) := by
  cases h : strIncludes r "maily.org" <;>
    simp [first_domain_match, RELAY_DOMAINS, hasRelayDomain, h]

theorem get_recipient_eq_find (l : List String) :
    get_recipient_with_relay_domain l = l.find? hasRelayDomain := by
  induction l with
  | nil => rfl
  | cons r rest ih =>
    simp only [get_recipient_with_relay_domain, first_domain_match_eq,
      List.find?_cons]
    cases h : hasRelayDomain r <;> simp [h, ih]

/-- C7 counterexample: the receipt fallback returns the matching recipient
verbatim, display name included (parseaddr would strip it), and matching is
substring containment, so an address whose domain is not a configured relay
domain can be returned from the to list. -/
theorem c7_counterexample :
    (get_relay_recipient ch7 (some receipt7) = .ok (some "Bob <a@maily.org>") ∧
      parseaddr_addr "Bob <a@maily.org>" = "a@maily.org") ∧
    (get_relay_recipient ch7b (some receipt7b) =
        .ok (some "b@maily.org.evil.com") ∧
      addrDomain "b@maily.org.evil.com" = "maily.org.evil.com" ∧
      "maily.org.evil.com" ∉ RELAY_DOMAINS) :=
  ⟨⟨rfl, rfl⟩, rfl, rfl, by decide⟩

/-- C7 amended: resolution searches the common-header to list, then cc,
returning the first address that contains a configured relay domain as a
substring with the display name stripped; only if neither matches are the
receipt recipients searched the same way, and that fallback match is
returned verbatim (not stripped). -/
theorem c7_amended_resolver (ch : CommonHeaders) (receipt : Receipt) :
    get_relay_recipient ch (some receipt) =
      .ok (resolve_recipient_spec ch receipt) := by
  rcases ch with ⟨fr, tos, ccs, su⟩
  cases tos with
  | none =>
    cases ccs with
    | none =>
      simp [get_relay_recipient, get_relay_recipient_cc,
        relay_recipient_fallback, resolve_recipient_spec, get_recipient_eq_find]
    | some cl =>
      cases hg : cl.find? hasRelayDomain <;>
        simp [get_relay_recipient, get_relay_recipient_cc,
          relay_recipient_fallback, resolve_recipient_spec,
          get_recipient_eq_find, hg]
  | some tl =>
    cases hf : tl.find? hasRelayDomain with
    | some r =>
      simp [get_relay_recipient, resolve_recipient_spec,
        get_recipient_eq_find, hf]
    | none =>
      cases ccs with
      | none =>
        simp [get_relay_recipient, get_relay_recipient_cc,
          relay_recipient_fallback, resolve_recipient_spec,
          get_recipient_eq_find, hf]
      | some cl =>
        cases hg : cl.find? hasRelayDomain <;>
          simp [get_relay_recipient, get_relay_recipient_cc,
            relay_recipient_fallback, resolve_recipient_spec,
            get_recipient_eq_find, hf, hg]

/-! ## C9 -/

theorem optOr_none_right (a : Option String) : optOr a none = a := by
  cases a <;> rfl

theorem optOr_none_left (b : Option String) : optOr none b = b := rfl

theorem optOr_some_left (c : String) (b : Option String) :
    optOr (some c) b = some c := rfl

theorem optOr_assoc (a b c : Option String) :
    optOr (optOr a b) c = optOr a (optOr b c) := by
  cases a <;> rfl

theorem foldl_extract_step (parts : List MimePart) (t0 h0 : Option String)
    (a0 : List (String × Bytes)) :
    parts.foldl extract_step (t0, h0, a0) =
      (optOr (lastPartContent "text/plain" parts) t0,
       optOr (lastPartContent "text/html" parts) h0,
       a0 ++ partsAttachments parts) := by
  induction parts generalizing t0 h0 a0 with
  | nil => simp [lastPartContent, partsAttachments, optOr]
  | cons p rest ih =>
    rw [List.foldl_cons]
    rcases p with ⟨att, fn, pl, ct, co⟩
    cases att with
    | true =>
      have e : extract_step (t0, h0, a0) ⟨true, fn, pl, ct, co⟩ =
          (t0, h0, a0 ++ [(fn, pl)]) := rfl
      rw [e, ih]
      simp [lastPartContent, partTextOf, partsAttachments, optOr_none_right]
    | false =>
      cases co with
      | none =>
        have e : extract_step (t0, h0, a0) ⟨false, fn, pl, ct, none⟩ =
            (t0, h0, a0) := rfl
        rw [e, ih]
        simp [lastPartContent, partTextOf, partsAttachments, optOr_none_right]
      | some c =>
        have e : extract_step (t0, h0, a0) ⟨false, fn, pl, ct, some c⟩ =
            (if ct = "text/plain" then some c else t0,
             if ct = "text/html" then some c else h0, a0) := rfl
        rw [e, ih]
        by_cases hp : ct = "text/plain"
        · have hh : ¬(ct = "text/html") := by rw [hp]; decide
          simp only [lastPartContent, partTextOf, partsAttachments, hp, hh]
          simp [optOr_assoc, optOr_some_left, optOr_none_left,
            optOr_none_right]
        · by_cases hh : ct = "text/html"
          · simp only [lastPartContent, partTextOf, partsAttachments, hp, hh]
            simp [optOr_assoc, optOr_some_left, optOr_none_left,
              optOr_none_right]
          · simp only [lastPartContent, partTextOf, partsAttachments, hp, hh]
            simp [optOr_assoc, optOr_some_left, optOr_none_left,
              optOr_none_right]

/-- C9 counterexample: with two non-attachment text/plain parts the content
of the second part becomes the text (and the synthesised html), not the
content of the first part. -/
theorem c9_counterexample :
    get_all_contents (fun s => s) (.multipart parts9) =
      (some "B", some "B", []) ∧ ("B" : String) ≠ "A" :=
  ⟨rfl, by decide⟩

/-- C9 amended: in a multipart message with several non-attachment
text/plain (or text/html) parts, extraction returns the content of the LAST
such part of each type (the first parts are overwritten), with HTML
synthesised from the text when only text was found. -/
theorem c9_amended_last_part_wins (urlize : String → String)
    (parts : List MimePart) :
    get_all_contents urlize (.multipart parts) =
      multipart_extract_spec urlize parts := by
  cases hl : lastPartContent "text/plain" parts <;>
    cases hh : lastPartContent "text/html" parts <;>
      simp [get_all_contents, foldl_extract_step, optOr_none_right,
        multipart_extract_spec, hl, hh]

/-! ## C1 -/

/-- C1: an inbound Received notification with a resolvable alias and valid
extracted content containing HTML produces exactly one outbound send whose
HTML body is the banner-wrapped original HTML (which contains the original
HTML), and exactly one reply record is stored, keyed by the new outbound
message id. -/
theorem c1_forward_send_and_store (env : Env) (body : SnsBody)
    (mail : MailEvent) (ch : CommonHeaders) (receipt : Receipt)
    (verdict : String) (f : String) (fs : List String)
    (alias0 dest mid : String) (tc : Option String) (hc : String)
    (atts : List (String × Bytes))
    (hnt : body.notificationType = some "Received")
    (het : body.eventType ≠ some "Bounce")
    (hmail : body.mail = some mail)
    (hch : mail.commonHeaders = some ch)
    (hrc : body.receipt = some receipt)
    (hdv : receipt.dmarcVerdict = some verdict)
    (hdm : ¬(verdict = "FAIL" ∧ receipt.dmarcPolicy.getD "none" = "reject"))
    (hres : get_relay_recipient ch (some receipt) = .ok (some alias0))
    (hreply : alias0 ≠ REPLY_EMAIL)
    (hfrom : ch.fromAddrs = some (f :: fs))
    (hdest : env.get_to_address alias0 = some dest)
    (hext : get_text_html_attachments env body = .ok (tc, some hc, atts))
    (hhc : hc ≠ "")
    (hsend : env.sendOutcome = .ok mid) :
    sendHtmls (handle_sns_message env body).1 =
      [some (wrap_html_email hc)] ∧
    strIncludes (wrap_html_email hc) hc = true ∧
    storeKeys (handle_sns_message env body).1 =
      [b64_lookup_key (derive_reply_keys (get_message_id_bytes mid)).1] := by
  have hcond : ¬(body.notificationType = some "Bounce" ∨
      body.eventType = some "Bounce") := by
    rintro (h | h)
    · rw [hnt] at h
      exact absurd h (by decide)
    · exact het h
  refine ⟨?_, strIncludes_wrap_contains hc, ?_⟩
  · simp only [handle_sns_message]
    simp [hcond, hmail, hch, hrc, hdv, hdm, hres, hreply, hfrom, hdest, hext,
      hsend, hhc, ses_relay_email, store_reply_record, sendHtmls]
  · simp only [handle_sns_message]
    simp [hcond, hmail, hch, hrc, hdv, hdm, hres, hreply, hfrom, hdest, hext,
      hsend, hhc, ses_relay_email, store_reply_record, storeKeys]

theorem c1_forward_send_and_store_witness :
    sendHtmls (handle_sns_message env1 body1).1 =
      [some (wrap_html_email "ORIGINAL")] ∧
    strIncludes (wrap_html_email "ORIGINAL") "ORIGINAL" = true ∧
    storeKeys (handle_sns_message env1 body1).1 =
      [b64_lookup_key
        (derive_reply_keys (get_message_id_bytes "new-mid-001")).1] :=
  c1_forward_send_and_store env1 body1 mail1 ch1 receipt1 "PASS"
    "sender@example.com" [] "alias1@maily.org" "dest@example.com"
    "new-mid-001" none "ORIGINAL" []
    rfl (by decide) rfl rfl rfl rfl (by decide) rfl (by decide) rfl rfl rfl
    (by decide) rfl

/-! ## C2 -/

/-- C2: the reply path cannot support the dispatcher's status comparison.
handle_reply calls ses_send_raw_email positionally so that None lands in its
mail parameter: on a successful send, store_reply_record subscripts None and
raises a TypeError inside the uncaught-by-ClientError try, so no reply
record is stored and the exception escapes the dispatcher; on a failed send
the bare boolean False is returned and the dispatcher's status subscript on
it raises a TypeError.  Either way the blob-deletion decision is never
reached. -/
theorem c2_reply_result_breaks_cleanup :
    ((handle_sns_message env2 body2).2 = .error .typeError ∧
      storeKeys (handle_sns_message env2 body2).1 = [] ∧
      (sns_notification env2 msg2).2 = .error .typeError) ∧
    ((handle_sns_message env2f body2).2 = .ok (.sent false) ∧
      (sns_notification env2f msg2).2 = .error .typeError) :=
  ⟨⟨rfl, rfl, rfl⟩, rfl, rfl⟩

end Maily
